import Mathlib

/-
Shallow embedding of the playwright_test_framework API-testing library:
  src/framework/config.py      (Config)
  src/framework/api_client.py  (APIClient, APIResponseWrapper)
  src/framework/helpers.py     (APIValidations, ResponseValidations, DataValidations)

Python strings are modelled as lists of characters (Str).  Python dicts are
modelled as association lists with first-occurrence lookup; dict assignment
replaces the value of an existing key in place and appends new keys at the
end, exactly as CPython preserves insertion order.  Fallible Python code
(exceptions) is modelled with Except.
-/

abbrev Str := List Char

/-- Python dict lookup d[k] / d.get(k): the value of the first pair whose key
matches (a Python dict never holds a duplicate key, so first-occurrence
lookup agrees with it). -/
def dictGet {α : Type} (d : List (Str × α)) (k : Str) : Option α :=
  match d with
  | [] => none
  | (k₀, v) :: rest => if k₀ = k then some v else dictGet rest k

/-- Python dict assignment d[k] = v: replace the value in place if the key is
present, append the new pair otherwise. -/
def dictSet {α : Type} (d : List (Str × α)) (k : Str) (v : α) : List (Str × α) :=
  match d with
  | [] => [(k, v)]
  | (k₀, v₀) :: rest => if k₀ = k then (k, v) :: rest else (k₀, v₀) :: dictSet rest k v

/-- Python d.update(r): assign every pair of r into d, left to right. -/
def dictUpdate {α : Type} (d : List (Str × α)) : List (Str × α) → List (Str × α)
  | [] => d
  | (k, v) :: r => dictUpdate (dictSet d k v) r

/-- Python d.setdefault(k, v): insert (k, v) only when the key is absent. -/
def dictSetdefault {α : Type} (d : List (Str × α)) (k : Str) (v : α) : List (Str × α) :=
  match dictGet d k with
  | some _ => d
  | none => d ++ [(k, v)]

/-- Python s.lstrip(c): drop every leading occurrence of the character c. -/
def lstrip (c : Char) (s : Str) : Str := s.dropWhile (fun a => a = c)

/-- Python s.rstrip(c): drop every trailing occurrence of the character c. -/
def rstrip (c : Char) (s : Str) : Str := ((s.reverse).dropWhile (fun a => a = c)).reverse

/-- Python truthiness-based `a or b` on strings: the empty string is falsy. -/
def pyOr (a b : Str) : Str := if a = [] then b else a

/-- config.py Config: the resolved configuration record (base_url, timeout,
default_headers, retry_count, log_level). -/
structure Config where
  base_url : Str
  timeout : Int
  default_headers : List (Str × Str)
  retry_count : Int
  log_level : Str
deriving DecidableEq

/-- The built-in defaults set at the top of Config.__init__. -/
def Config.defaults : Config :=
  { base_url := []
    timeout := 30
    default_headers := [("User-Agent".toList, "Playwright-Test-Framework/1.0".toList)]
    retry_count := 3
    log_level := "INFO".toList }

/-- A parsed YAML configuration document: each recognised top-level key may be
present or absent (unknown keys are ignored by the loader and hence omitted
from the model). -/
structure YamlDoc where
  base_url : Option Str
  timeout : Option Int
  retry_count : Option Int
  log_level : Option Str
  default_headers : Option (List (Str × Str))
deriving DecidableEq

/-- What opening and YAML-parsing a path can yield: the file is missing
(FileNotFoundError), the content is not valid YAML (yaml.YAMLError with a
parser message), or it parses; a parse result of None / an empty document is
the `yaml none` case (the loader's `if not data: return`). -/
inductive FileContent
  | missing
  | invalidYaml (err : Str)
  | yaml (doc : Option YamlDoc)
deriving DecidableEq

/-- The file system, as the config loader sees it. -/
abbrev FS := Str → FileContent

/-- Config._load_from_yaml: read and parse the file, overlay each recognised
key onto the current configuration, merge (not replace) default_headers;
FileNotFoundError and yaml.YAMLError are re-raised as ValueError messages
that embed the offending path. -/
def Config.loadFromYaml (fs : FS) (cfg : Config) (config_file : Str) : Except Str Config :=
  match fs config_file with
  | .missing => .error ("Config file not found: ".toList ++ config_file)
  | .invalidYaml e =>
      .error ("Invalid YAML in config file ".toList ++ config_file ++ ": ".toList ++ e)
  | .yaml none => .ok cfg
  | .yaml (some d) =>
      .ok { base_url := (d.base_url).getD cfg.base_url
            timeout := (d.timeout).getD cfg.timeout
            retry_count := (d.retry_count).getD cfg.retry_count
            log_level := (d.log_level).getD cfg.log_level
            default_headers :=
              match d.default_headers with
              | some h => dictUpdate cfg.default_headers h
              | none => cfg.default_headers }

/-- Config._load_from_environment: when the API_KEY environment variable is
set, inject Authorization: Bearer <key> into the default headers (API_SECRET
is read but has no effect). -/
def Config.loadFromEnvironment (api_key : Option Str) (cfg : Config) : Config :=
  match api_key with
  | some k =>
      { cfg with
          default_headers :=
            dictSet cfg.default_headers "Authorization".toList ("Bearer ".toList ++ k) }
  | none => cfg

/-- Config.__init__: built-in defaults, then the optional YAML file, then the
environment, in that order. -/
def Config.load (fs : FS) (api_key : Option Str) (config_file : Option Str) :
    Except Str Config :=
  match config_file with
  | some f =>
      match Config.loadFromYaml fs Config.defaults f with
      | .error e => .error e
      | .ok c => .ok (Config.loadFromEnvironment api_key c)
  | none => .ok (Config.loadFromEnvironment api_key Config.defaults)

/-- A Playwright APIRequestContext as the client sees it: .dispose() flips it
to disposed, but the Python client keeps the reference afterwards. -/
structure ReqCtx where
  disposed : Bool
deriving DecidableEq

/-- APIClient: configuration snapshot, resolved base URL and default headers,
and the two Playwright handles _playwright / _request_context (both unset
until __aenter__). -/
structure APIClient where
  config : Config
  base_url : Str
  default_headers : List (Str × Str)
  playwright_running : Bool
  request_context : Option ReqCtx
deriving DecidableEq

/-- APIClient.__init__: load configuration (propagating its ValueError),
resolve base_url as `base_url or config.base_url` with trailing slashes
stripped, copy the config headers and update them with the constructor
headers, and leave both Playwright handles unset. -/
def APIClient.init (fs : FS) (api_key : Option Str) (base_url : Str)
    (headers : Option (List (Str × Str))) (config_file : Option Str) :
    Except Str APIClient :=
  match Config.load fs api_key config_file with
  | .error e => .error e
  | .ok config =>
      .ok { config := config
            base_url := rstrip '/' (pyOr base_url config.base_url)
            default_headers :=
              match headers with
              | some h => dictUpdate config.default_headers h
              | none => config.default_headers
            playwright_running := false
            request_context := none }

/-- APIRequestContext.dispose(). -/
def ReqCtx.dispose (ctx : ReqCtx) : ReqCtx := { ctx with disposed := true }

/-- APIClient.__aenter__: start Playwright and create a fresh request
context. -/
def APIClient.aenter (c : APIClient) : APIClient :=
  { c with playwright_running := true, request_context := some { disposed := false } }

/-- APIClient.__aexit__: dispose the request context (if any) and stop
Playwright.  Note that _request_context is NOT reset to None: the client
keeps the reference to the now-disposed context. -/
def APIClient.aexit (c : APIClient) : APIClient :=
  { c with
      request_context := (c.request_context).map ReqCtx.dispose
      playwright_running := false }

/-- APIClient._build_url: an endpoint starting with the literal prefix
"http" is returned unchanged; otherwise leading slashes are stripped from
the endpoint and it is joined to the base URL with one slash, or returned
bare when the base URL is empty. -/
def APIClient.buildUrl (c : APIClient) (endpoint : Str) : Str :=
  if "http".toList.isPrefixOf endpoint then endpoint
  else
    let e := lstrip '/' endpoint
    if c.base_url = [] then e else c.base_url ++ '/' :: e

/-- APIClient._merge_headers: copy the default headers and update the copy
with the per-request headers. -/
def APIClient.mergeHeaders (c : APIClient) (headers : Option (List (Str × Str))) :
    List (Str × Str) :=
  match headers with
  | some h => dictUpdate c.default_headers h
  | none => c.default_headers

/-- A JSON value, as produced by response.json() or passed as a POST/PUT
body dict (numbers restricted to integers, which is all this test framework
traffics in). -/
inductive Json
  | null
  | bool (b : Bool)
  | num (n : Int)
  | str (s : Str)
  | arr (elems : List Json)
  | obj (fields : List (Str × Json))

def quoteChar : Char := Char.ofNat 34
def backslashChar : Char := Char.ofNat 92
def lbrace : Char := Char.ofNat 123
def rbrace : Char := Char.ofNat 125
def squoteChar : Char := Char.ofNat 39

/-- json.dumps escaping of one character (the common escapes; exotic control
characters pass through, which the theorems below never rely on). -/
def escapeJsonChar (c : Char) : Str :=
  if c = quoteChar then [backslashChar, quoteChar]
  else if c = backslashChar then [backslashChar, backslashChar]
  else if c = Char.ofNat 10 then [backslashChar, 'n']
  else if c = Char.ofNat 9 then [backslashChar, 't']
  else if c = Char.ofNat 13 then [backslashChar, 'r']
  else if c = Char.ofNat 8 then [backslashChar, 'b']
  else if c = Char.ofNat 12 then [backslashChar, 'f']
  else [c]

/-- A JSON string literal as json.dumps renders it. -/
def jsonDumpStr (s : Str) : Str :=
  quoteChar :: (s.map escapeJsonChar).flatten ++ [quoteChar]

mutual

/-- json.dumps with CPython's default separators (", " and ": "). -/
def jsonDumps : Json → Str
  | .null => "null".toList
  | .bool true => "true".toList
  | .bool false => "false".toList
  | .num n => (toString n).toList
  | .str s => jsonDumpStr s
  | .arr xs => '[' :: jsonDumpsList xs ++ [']']
  | .obj fs => lbrace :: jsonDumpsFields fs ++ [rbrace]

def jsonDumpsList : List Json → Str
  | [] => []
  | [x] => jsonDumps x
  | x :: y :: xs => jsonDumps x ++ ", ".toList ++ jsonDumpsList (y :: xs)

def jsonDumpsFields : List (Str × Json) → Str
  | [] => []
  | [(k, v)] => jsonDumpStr k ++ ": ".toList ++ jsonDumps v
  | (k, v) :: f :: fs =>
      jsonDumpStr k ++ ": ".toList ++ jsonDumps v ++ ", ".toList ++ jsonDumpsFields (f :: fs)

end

mutual

/-- Python == on modelled JSON values (containers compared structurally). -/
def jsonEq : Json → Json → Bool
  | .null, .null => true
  | .bool a, .bool b => a == b
  | .num a, .num b => a == b
  | .str a, .str b => a == b
  | .arr a, .arr b => jsonListEq a b
  | .obj a, .obj b => jsonObjEq a b
  | _, _ => false

def jsonListEq : List Json → List Json → Bool
  | [], [] => true
  | x :: xs, y :: ys => jsonEq x y && jsonListEq xs ys
  | _, _ => false

def jsonObjEq : List (Str × Json) → List (Str × Json) → Bool
  | [], [] => true
  | (k₁, v₁) :: xs, (k₂, v₂) :: ys => k₁ == k₂ && jsonEq v₁ v₂ && jsonObjEq xs ys
  | _, _ => false

end

/-- A Python repr of a string (single-quoted). -/
def pyStrRepr (s : Str) : Str := squoteChar :: s ++ [squoteChar]

mutual

/-- Python str() of a modelled JSON value, as interpolated by f-strings. -/
def pyToStr : Json → Str
  | .null => "None".toList
  | .bool true => "True".toList
  | .bool false => "False".toList
  | .num n => (toString n).toList
  | .str s => s
  | .arr xs => '[' :: pyReprList xs ++ [']']
  | .obj fs => lbrace :: pyReprFields fs ++ [rbrace]

/-- Python repr() of a modelled JSON value (used inside containers). -/
def pyRepr : Json → Str
  | .null => "None".toList
  | .bool true => "True".toList
  | .bool false => "False".toList
  | .num n => (toString n).toList
  | .str s => pyStrRepr s
  | .arr xs => '[' :: pyReprList xs ++ [']']
  | .obj fs => lbrace :: pyReprFields fs ++ [rbrace]

def pyReprList : List Json → Str
  | [] => []
  | [x] => pyRepr x
  | x :: y :: xs => pyRepr x ++ ", ".toList ++ pyReprList (y :: xs)

def pyReprFields : List (Str × Json) → Str
  | [] => []
  | [(k, v)] => pyStrRepr k ++ ": ".toList ++ pyRepr v
  | (k, v) :: f :: fs =>
      pyStrRepr k ++ ": ".toList ++ pyRepr v ++ ", ".toList ++ pyReprFields (f :: fs)

end

/-- The body argument of post/put: None, a string, or a dict. -/
inductive PyData
  | none
  | str (s : Str)
  | dict (d : List (Str × Json))

/-- What the client hands to the Playwright request context. -/
structure PreparedRequest where
  method : Str
  url : Str
  params : Option (List (Str × Json))
  headers : List (Str × Str)
  body : Option Str

/-- The observable outcome of a request method: dereferencing an unset
_request_context (the AttributeError on None raised before any transport
activity), or an invocation of the stored context with a prepared request. -/
inductive CallOutcome
  | noneContextError
  | transportCall (ctx : ReqCtx) (req : PreparedRequest)

/-- Does the outcome invoke the (stored) transport context? -/
def CallOutcome.issuesTransport : CallOutcome → Bool
  | .transportCall _ _ => true
  | .noneContextError => false

/-- The context an outcome invokes, if any. -/
def CallOutcome.transportCtx : CallOutcome → Option ReqCtx
  | .transportCall ctx _ => some ctx
  | .noneContextError => none

/-- APIClient.get: build the URL, merge headers, then call
self._request_context.get. -/
def APIClient.getCall (c : APIClient) (endpoint : Str)
    (params : Option (List (Str × Json))) (headers : Option (List (Str × Str))) :
    CallOutcome :=
  match c.request_context with
  | none => .noneContextError
  | some ctx =>
      .transportCall ctx
        { method := "GET".toList
          url := c.buildUrl endpoint
          params := params
          headers := c.mergeHeaders headers
          body := Option.none }

/-- APIClient.post: build the URL, merge headers; a dict body is serialised
with json.dumps and Content-Type: application/json is set on the merged copy
via setdefault; then call self._request_context.post. -/
def APIClient.postCall (c : APIClient) (endpoint : Str) (data : PyData)
    (headers : Option (List (Str × Str))) : CallOutcome :=
  let merged := c.mergeHeaders headers
  let sent : Option Str × List (Str × Str) :=
    match data with
    | .dict d =>
        (some (jsonDumps (Json.obj d)),
         dictSetdefault merged "Content-Type".toList "application/json".toList)
    | .str s => (some s, merged)
    | .none => (Option.none, merged)
  match c.request_context with
  | none => .noneContextError
  | some ctx =>
      .transportCall ctx
        { method := "POST".toList
          url := c.buildUrl endpoint
          params := Option.none
          headers := sent.2
          body := sent.1 }

/-- APIClient.put: identical body handling to post (the source duplicates
the logic). -/
def APIClient.putCall (c : APIClient) (endpoint : Str) (data : PyData)
    (headers : Option (List (Str × Str))) : CallOutcome :=
  let merged := c.mergeHeaders headers
  let sent : Option Str × List (Str × Str) :=
    match data with
    | .dict d =>
        (some (jsonDumps (Json.obj d)),
         dictSetdefault merged "Content-Type".toList "application/json".toList)
    | .str s => (some s, merged)
    | .none => (Option.none, merged)
  match c.request_context with
  | none => .noneContextError
  | some ctx =>
      .transportCall ctx
        { method := "PUT".toList
          url := c.buildUrl endpoint
          params := Option.none
          headers := sent.2
          body := sent.1 }

/-- APIClient.delete. -/
def APIClient.deleteCall (c : APIClient) (endpoint : Str)
    (headers : Option (List (Str × Str))) : CallOutcome :=
  match c.request_context with
  | none => .noneContextError
  | some ctx =>
      .transportCall ctx
        { method := "DELETE".toList
          url := c.buildUrl endpoint
          params := Option.none
          headers := c.mergeHeaders headers
          body := Option.none }

/-- APIClient.get with the resulting client state made explicit: the method
body assigns nothing to self, so every field of the post-state is the
corresponding field of the pre-state. -/
def APIClient.getStep (c : APIClient) (endpoint : Str)
    (params : Option (List (Str × Json))) (headers : Option (List (Str × Str))) :
    APIClient × CallOutcome :=
  ({ config := c.config
     base_url := c.base_url
     default_headers := c.default_headers
     playwright_running := c.playwright_running
     request_context := c.request_context },
   c.getCall endpoint params headers)

/-- APIClient.post with the resulting client state made explicit (the
Content-Type setdefault acts on the per-call merged copy only). -/
def APIClient.postStep (c : APIClient) (endpoint : Str) (data : PyData)
    (headers : Option (List (Str × Str))) : APIClient × CallOutcome :=
  ({ config := c.config
     base_url := c.base_url
     default_headers := c.default_headers
     playwright_running := c.playwright_running
     request_context := c.request_context },
   c.postCall endpoint data headers)

/-- APIClient.put with the resulting client state made explicit. -/
def APIClient.putStep (c : APIClient) (endpoint : Str) (data : PyData)
    (headers : Option (List (Str × Str))) : APIClient × CallOutcome :=
  ({ config := c.config
     base_url := c.base_url
     default_headers := c.default_headers
     playwright_running := c.playwright_running
     request_context := c.request_context },
   c.putCall endpoint data headers)

/-- APIClient.delete with the resulting client state made explicit. -/
def APIClient.deleteStep (c : APIClient) (endpoint : Str)
    (headers : Option (List (Str × Str))) : APIClient × CallOutcome :=
  ({ config := c.config
     base_url := c.base_url
     default_headers := c.default_headers
     playwright_running := c.playwright_running
     request_context := c.request_context },
   c.deleteCall endpoint headers)

/-- The raw transport response underlying a wrapper. -/
structure APIResponse where
  status : Int
  status_text : Str
deriving DecidableEq

/-- APIResponseWrapper: a non-owning view over one raw response. -/
structure APIResponseWrapper where
  _response : APIResponse
deriving DecidableEq

/-- The status property: reads self._response.status. -/
def APIResponseWrapper.status (w : APIResponseWrapper) : Int :=
  w._response.status

/-- is_successful: 200 <= self.status < 300. -/
def APIResponseWrapper.is_successful (w : APIResponseWrapper) : Bool :=
  decide (200 ≤ w.status ∧ w.status < 300)

/-- is_client_error: 400 <= self.status < 500. -/
def APIResponseWrapper.is_client_error (w : APIResponseWrapper) : Bool :=
  decide (400 ≤ w.status ∧ w.status < 500)

/-- is_server_error: 500 <= self.status < 600. -/
def APIResponseWrapper.is_server_error (w : APIResponseWrapper) : Bool :=
  decide (500 ≤ w.status ∧ w.status < 600)

/-- The Python exceptions the validation helpers can raise: KeyError from a
dict subscript, TypeError from an unsupported operation, and AssertionError
carrying an optional message (a bare `assert cond` raises with no message). -/
inductive PyErr
  | keyError (k : Str)
  | typeError
  | assertionError (msg : Option Str)
deriving DecidableEq

/-- Python `assert cond, msg` (msg absent models a bare assert). -/
def pyAssert (cond : Bool) (msg : Option Str) : Except PyErr Unit :=
  if cond then .ok () else .error (.assertionError msg)

/-- Python subscript j[k] on a decoded JSON value: a value for a present key
of a dict, KeyError for an absent key, TypeError otherwise. -/
def pyGetItem (j : Json) (k : Str) : Except PyErr Json :=
  match j with
  | .obj fields =>
      match dictGet fields k with
      | some v => .ok v
      | none => .error (.keyError k)
  | _ => .error .typeError

/-- Contiguous-substring test (Python `needle in haystack` on strings). -/
def strContains (needle : Str) : Str → Bool
  | [] => needle.isEmpty
  | a :: rest => needle.isPrefixOf (a :: rest) || strContains needle rest

/-- Python `k in j` on a decoded JSON value: key membership for dicts,
element membership for lists, substring test for strings, TypeError
otherwise. -/
def pyIn (k : Str) (j : Json) : Except PyErr Bool :=
  match j with
  | .obj fields => .ok (dictGet fields k).isSome
  | .arr xs => .ok (xs.any (fun x => jsonEq x (.str k)))
  | .str s => .ok (strContains k s)
  | _ => .error .typeError

/-- Python len() on a decoded JSON value. -/
def pyLen (j : Json) : Except PyErr Int :=
  match j with
  | .arr xs => .ok (xs.length : Int)
  | .str s => .ok (s.length : Int)
  | .obj fields => .ok (fields.length : Int)
  | _ => .error .typeError

/-- Python isinstance(j, list) on a decoded JSON value. -/
def isList : Json → Bool
  | .arr _ => true
  | _ => false

/-- Python str(type(j)), as interpolated into failure messages. -/
def pyTypeStr (j : Json) : Str :=
  let name : Str :=
    match j with
    | .null => "NoneType".toList
    | .bool _ => "bool".toList
    | .num _ => "int".toList
    | .str _ => "str".toList
    | .arr _ => "list".toList
    | .obj _ => "dict".toList
  "<class ".toList ++ [squoteChar] ++ name ++ [squoteChar, '>']

/-- helpers.py APIValidations.validate_single_post, applied to the decoded
response body: `assert post['id'] == post_id` then bare membership asserts
for 'title', 'body', 'userId' — none of the four asserts carries a
message. -/
def APIValidations.validate_single_post (post : Json) (post_id : Json) :
    Except PyErr Unit := do
  let v ← pyGetItem post "id".toList
  pyAssert (jsonEq v post_id) Option.none
  let t ← pyIn "title".toList post
  pyAssert t Option.none
  let b ← pyIn "body".toList post
  pyAssert b Option.none
  let u ← pyIn "userId".toList post
  pyAssert u Option.none

/-- The for-loop over required_fields in validate_post_list: bare membership
asserts on the first post. -/
def checkRequiredFields (first : Json) : List Str → Except PyErr Unit
  | [] => .ok ()
  | f :: fs => do
      let b ← pyIn f first
      pyAssert b Option.none
      checkRequiredFields first fs

/-- helpers.py APIValidations.validate_post_list, applied to the decoded
response body: bare asserts that the body is a list of at least min_count
elements, then (if non-empty) bare membership asserts of the required
fields on the first element. -/
def APIValidations.validate_post_list (posts : Json) (min_count : Int) :
    Except PyErr Unit := do
  pyAssert (isList posts) Option.none
  let n ← pyLen posts
  pyAssert (decide (min_count ≤ n)) Option.none
  match posts with
  | .arr (first :: _) =>
      checkRequiredFields first
        ["id".toList, "title".toList, "body".toList, "userId".toList]
  | _ => .ok ()

/-- The f-string "Required field '...' not found in response". -/
def requiredFieldMsg (f : Str) : Str :=
  "Required field ".toList ++ pyStrRepr f ++ " not found in response".toList

/-- The f-string "Field '...' not found in response". -/
def fieldMissingMsg (f : Str) : Str :=
  "Field ".toList ++ pyStrRepr f ++ " not found in response".toList

/-- The f-string "Field '...' has value '...', expected '...'". -/
def fieldValueMsg (f : Str) (v exp : Json) : Str :=
  "Field ".toList ++ pyStrRepr f ++ " has value ".toList ++ pyStrRepr (pyToStr v) ++
    ", expected ".toList ++ pyStrRepr (pyToStr exp)

/-- helpers.py APIValidations.validate_json_contains_fields, applied to the
decoded response body: for each required field, assert membership with the
message f-string naming the field. -/
def APIValidations.validate_json_contains_fields (data : Json) :
    List Str → Except PyErr Unit
  | [] => .ok ()
  | f :: fs => do
      let b ← pyIn f data
      pyAssert b (some (requiredFieldMsg f))
      APIValidations.validate_json_contains_fields data fs

/-- helpers.py APIValidations.validate_json_field_value, applied to the
decoded response body: assert field presence (message naming the field),
then assert equality with the expected value (message naming the field and
interpolating the actual and expected values). -/
def APIValidations.validate_json_field_value (data : Json) (field_name : Str)
    (expected_value : Json) : Except PyErr Unit := do
  let b ← pyIn field_name data
  pyAssert b (some (fieldMissingMsg field_name))
  let v ← pyGetItem data field_name
  pyAssert (jsonEq v expected_value) (some (fieldValueMsg field_name v expected_value))

/-- helpers.py ResponseValidations.validate_status_code: assert on the
wrapper's status with a message interpolating expected and actual. -/
def ResponseValidations.validate_status_code (w : APIResponseWrapper)
    (expected_status : Int) : Except PyErr Unit :=
  pyAssert (decide (w.status = expected_status))
    (some ("Expected status ".toList ++ (toString expected_status).toList ++
      ", got ".toList ++ (toString w.status).toList))

/-- helpers.py DataValidations.validate_json_schema_type, applied to the
decoded response body: assert field presence, then an isinstance check with
a message naming the field and both types.  The expected Python type is
identified by its name as interpolated into the message. -/
def DataValidations.validate_json_schema_type (data : Json) (field_name : Str)
    (expected_type : Str) : Except PyErr Unit := do
  let b ← pyIn field_name data
  pyAssert b (some (fieldMissingMsg field_name))
  let v ← pyGetItem data field_name
  let isMatch : Bool :=
    match v with
    | .null => expected_type = "NoneType".toList
    | .bool _ => expected_type = "bool".toList
    | .num _ => expected_type = "int".toList
    | .str _ => expected_type = "str".toList
    | .arr _ => expected_type = "list".toList
    | .obj _ => expected_type = "dict".toList
  pyAssert isMatch
    (some ("Field ".toList ++ pyStrRepr field_name ++ " is ".toList ++ pyTypeStr v ++
      ", expected <class ".toList ++ [squoteChar] ++ expected_type ++ [squoteChar, '>']))

/-- helpers.py DataValidations.validate_list_not_empty, applied to the
decoded response body: optionally descend into a named field (presence
assert naming the field), then assert the target is a list (message showing
the actual type but not the field name) and non-empty (fixed message
"List is empty", again without the field name). -/
def DataValidations.validate_list_not_empty (data : Json) (field_name : Option Str) :
    Except PyErr Unit := do
  let target ←
    match field_name with
    | some f => do
        let b ← pyIn f data
        pyAssert b (some (fieldMissingMsg f))
        pyGetItem data f
    | none => Except.ok data
  pyAssert (isList target) (some ("Expected list, got ".toList ++ pyTypeStr target))
  let n ← pyLen target
  pyAssert (decide (0 < n)) (some "List is empty".toList)

theorem dictGet_cons {α : Type} (k₀ : Str) (v₀ : α) (rest : List (Str × α)) (k : Str) :
    dictGet ((k₀, v₀) :: rest) k = if k₀ = k then some v₀ else dictGet rest k := rfl

theorem dictSet_cons {α : Type} (k₀ : Str) (v₀ : α) (rest : List (Str × α))
    (k : Str) (v : α) :
    dictSet ((k₀, v₀) :: rest) k v =
      if k₀ = k then (k, v) :: rest else (k₀, v₀) :: dictSet rest k v := rfl

theorem dictGet_dictSet {α : Type} (d : List (Str × α)) (k k' : Str) (v : α) :
    dictGet (dictSet d k v) k' = if k = k' then some v else dictGet d k' := by
  induction d with
  | nil => rfl
  | cons p rest ih =>
      obtain ⟨k₀, v₀⟩ := p
      rw [dictSet_cons]
      by_cases h : k₀ = k
      · subst h
        rw [if_pos rfl, dictGet_cons, dictGet_cons]
        by_cases hk : k₀ = k'
        · rw [if_pos hk, if_pos hk]
        · rw [if_neg hk, if_neg hk, if_neg hk]
      · rw [if_neg h, dictGet_cons, dictGet_cons, ih]
        by_cases h0 : k₀ = k'
        · subst h0
          rw [if_pos rfl, if_pos rfl, if_neg (fun he : k = k₀ => h he.symm)]
        · rw [if_neg h0, if_neg h0]

theorem dictGet_eq_none_of_not_mem {α : Type} (r : List (Str × α)) (k : Str)
    (h : k ∉ r.map Prod.fst) : dictGet r k = none := by
  induction r with
  | nil => rfl
  | cons p rest ih =>
      obtain ⟨k₀, v₀⟩ := p
      simp only [List.map_cons, List.mem_cons] at h
      push_neg at h
      rw [dictGet_cons, if_neg (fun he : k₀ = k => h.1 he.symm)]
      exact ih h.2

theorem dictGet_dictUpdate_none {α : Type} (d r : List (Str × α)) (k : Str)
    (h : dictGet r k = none) : dictGet (dictUpdate d r) k = dictGet d k := by
  induction r generalizing d with
  | nil => simp [dictUpdate]
  | cons p rest ih =>
      obtain ⟨k₀, v₀⟩ := p
      rw [dictGet_cons] at h
      by_cases h0 : k₀ = k
      · rw [if_pos h0] at h
        exact absurd h (by simp)
      · rw [if_neg h0] at h
        show dictGet (dictUpdate (dictSet d k₀ v₀) rest) k = dictGet d k
        rw [ih _ h, dictGet_dictSet, if_neg h0]

theorem dictGet_dictUpdate_some {α : Type} (d r : List (Str × α)) (k : Str) (v : α)
    (hnd : (r.map Prod.fst).Nodup) (h : dictGet r k = some v) :
    dictGet (dictUpdate d r) k = some v := by
  induction r generalizing d with
  | nil => simp [dictGet] at h
  | cons p rest ih =>
      obtain ⟨k₀, v₀⟩ := p
      simp only [List.map_cons, List.nodup_cons] at hnd
      rw [dictGet_cons] at h
      show dictGet (dictUpdate (dictSet d k₀ v₀) rest) k = some v
      by_cases h0 : k₀ = k
      · subst h0
        rw [if_pos rfl] at h
        injection h with hv
        subst hv
        rw [dictGet_dictUpdate_none _ _ _ (dictGet_eq_none_of_not_mem _ _ hnd.1),
          dictGet_dictSet, if_pos rfl]
      · rw [if_neg h0] at h
        exact ih _ hnd.2 h

theorem dictGet_append {α : Type} (d₁ d₂ : List (Str × α)) (k : Str) :
    dictGet (d₁ ++ d₂) k =
      match dictGet d₁ k with
      | some v => some v
      | none => dictGet d₂ k := by
  induction d₁ with
  | nil => simp [dictGet]
  | cons p rest ih =>
      obtain ⟨k₀, v₀⟩ := p
      by_cases h0 : k₀ = k <;> simp [dictGet, h0, ih]

theorem dictGet_dictSetdefault_present {α : Type} (d : List (Str × α)) (k : Str)
    (v w : α) (h : dictGet d k = some w) : dictSetdefault d k v = d := by
  simp [dictSetdefault, h]

theorem dictGet_dictSetdefault_absent {α : Type} (d : List (Str × α)) (k : Str)
    (v : α) (h : dictGet d k = none) :
    dictGet (dictSetdefault d k v) k = some v := by
  simp [dictSetdefault, h, dictGet_append, dictGet]

theorem dictGet_dictSetdefault_other {α : Type} (d : List (Str × α)) (k k' : Str)
    (v : α) (hne : k' ≠ k) :
    dictGet (dictSetdefault d k v) k' = dictGet d k' := by
  unfold dictSetdefault
  cases h : dictGet d k with
  | some w => rfl
  | none =>
      rw [dictGet_append]
      cases h' : dictGet d k' with
      | some w => rfl
      | none =>
          show dictGet [(k, v)] k' = none
          rw [dictGet_cons, if_neg (fun he : k = k' => hne he.symm)]
          rfl

theorem head?_dropWhile_ne (c : Char) (l : Str) :
    ((l.dropWhile (fun a => a = c)).head?) ≠ some c := by
  induction l with
  | nil => simp
  | cons a l ih =>
      by_cases h : a = c <;> simp [List.dropWhile_cons, h, ih]

theorem head?_lstrip (c : Char) (s : Str) : (lstrip c s).head? ≠ some c :=
  head?_dropWhile_ne c s

theorem getLast?_rstrip (c : Char) (s : Str) : (rstrip c s).getLast? ≠ some c := by
  rw [rstrip, List.getLast?_reverse]
  exact head?_dropWhile_ne c s.reverse

theorem loadFromEnvironment_base (key : Option Str) (cfg : Config) :
    (Config.loadFromEnvironment key cfg).base_url = cfg.base_url := by
  cases key <;> rfl

theorem buildUrl_eq (c : APIClient) (e : Str) :
    c.buildUrl e =
      if ("http".toList.isPrefixOf e) = true then e
      else if c.base_url = [] then lstrip '/' e
      else c.base_url ++ '/' :: lstrip '/' e := rfl

/-- The base URL of a construction result (None when construction failed). -/
def resultBaseUrl (r : Except Str APIClient) : Option Str :=
  match r with
  | .ok c => some c.base_url
  | .error _ => none

/-- The Authorization default header of a loaded configuration. -/
def resultConfigAuth (r : Except Str Config) : Option (Option Str) :=
  match r with
  | .ok cfg => some (dictGet cfg.default_headers "Authorization".toList)
  | .error _ => none

/-- The Authorization default header of a constructed client. -/
def resultClientAuth (r : Except Str APIClient) : Option (Option Str) :=
  match r with
  | .ok c => some (dictGet c.default_headers "Authorization".toList)
  | .error _ => none

/-- A concrete, never-started client used to instantiate the theorems. -/
def sampleClient : APIClient :=
  { config := Config.defaults
    base_url := "http://api.example.com".toList
    default_headers := [("User-Agent".toList, "UA".toList), ("Accept".toList, "x".toList)]
    playwright_running := false
    request_context := none }

/-- A concrete client inside an active session. -/
def startedClient : APIClient := sampleClient.aenter

/-- A file system with no files at all. -/
def fsMissing : FS := fun _ => FileContent.missing

/-- C1: for every endpoint not beginning with the scheme prefix (the source
tests the literal prefix "http"), _build_url joins the stored base URL and
the endpoint with exactly one slash — the base URL is stored with trailing
slashes stripped at construction and the endpoint's leading slashes are
stripped — and returns the bare (slash-stripped) endpoint when the base URL
is empty; an endpoint beginning with the scheme prefix is returned
unchanged. -/
theorem build_url_single_slash_join :
    (∀ (fs : FS) (key : Option Str) (b : Str) (hs : Option (List (Str × Str)))
       (cf : Option Str) (c : APIClient),
       APIClient.init fs key b hs cf = Except.ok c →
       (c.base_url).getLast? ≠ some '/') ∧
    (∀ (c : APIClient) (e : Str),
       ("http".toList.isPrefixOf e) = true → c.buildUrl e = e) ∧
    (∀ (c : APIClient) (e : Str),
       ("http".toList.isPrefixOf e) = false →
         (c.base_url = [] → c.buildUrl e = lstrip '/' e) ∧
         (c.base_url ≠ [] →
            c.buildUrl e = c.base_url ++ '/' :: lstrip '/' e ∧
            (lstrip '/' e).head? ≠ some '/')) := by
  refine ⟨?_, ?_, ?_⟩
  · intro fs key b hs cf c h
    unfold APIClient.init at h
    cases hcfg : Config.load fs key cf with
    | error err =>
        rw [hcfg] at h
        exact absurd h (by simp)
    | ok config =>
        rw [hcfg] at h
        simp only [Except.ok.injEq] at h
        subst h
        exact getLast?_rstrip '/' _
  · intro c e h
    rw [buildUrl_eq, if_pos h]
  · intro c e h
    have hnot : ¬ (("http".toList.isPrefixOf e) = true) := by
      intro hc
      rw [h] at hc
      exact Bool.false_ne_true hc
    refine ⟨fun hb => ?_, fun hb => ⟨?_, head?_lstrip '/' e⟩⟩
    · rw [buildUrl_eq, if_neg hnot, if_pos hb]
    · rw [buildUrl_eq, if_neg hnot, if_neg hb]

theorem build_url_single_slash_join_witness :
    ("http".toList.isPrefixOf "//users".toList) = false ∧
    ¬ sampleClient.base_url = [] ∧
    sampleClient.buildUrl "//users".toList
      = sampleClient.base_url ++ '/' :: lstrip '/' "//users".toList ∧
    ("http".toList.isPrefixOf "http://x.y/z".toList) = true ∧
    sampleClient.buildUrl "http://x.y/z".toList = "http://x.y/z".toList :=
  ⟨by decide, by decide,
    ((build_url_single_slash_join.2.2 sampleClient "//users".toList (by decide)).2
      (by decide)).1,
    by decide,
    build_url_single_slash_join.2.1 sampleClient "http://x.y/z".toList (by decide)⟩

/-- C2: is_successful / is_client_error / is_server_error hold exactly on
[200,300), [400,500), [500,600); statuses 399 and 600 satisfy none of the
three; and each predicate is a function of the stored status integer
alone. -/
theorem status_predicates_partition_ranges :
    (∀ w : APIResponseWrapper,
       (w.is_successful = true ↔ 200 ≤ w.status ∧ w.status < 300) ∧
       (w.is_client_error = true ↔ 400 ≤ w.status ∧ w.status < 500) ∧
       (w.is_server_error = true ↔ 500 ≤ w.status ∧ w.status < 600)) ∧
    (∀ w : APIResponseWrapper, w.status = 399 ∨ w.status = 600 →
       w.is_successful = false ∧ w.is_client_error = false ∧
       w.is_server_error = false) ∧
    (∀ w w' : APIResponseWrapper, w.status = w'.status →
       w.is_successful = w'.is_successful ∧
       w.is_client_error = w'.is_client_error ∧
       w.is_server_error = w'.is_server_error) := by
  refine ⟨fun w => ⟨?_, ?_, ?_⟩, fun w h => ?_, fun w w' h => ?_⟩
  · simp [APIResponseWrapper.is_successful]
  · simp [APIResponseWrapper.is_client_error]
  · simp [APIResponseWrapper.is_server_error]
  · rcases h with h | h <;>
      simp [APIResponseWrapper.is_successful, APIResponseWrapper.is_client_error,
        APIResponseWrapper.is_server_error, h]
  · simp [APIResponseWrapper.is_successful, APIResponseWrapper.is_client_error,
      APIResponseWrapper.is_server_error, h]

theorem status_predicates_partition_ranges_witness :
    (APIResponseWrapper.mk ⟨399, []⟩).is_successful = false ∧
    (APIResponseWrapper.mk ⟨399, []⟩).is_client_error = false ∧
    (APIResponseWrapper.mk ⟨399, []⟩).is_server_error = false :=
  status_predicates_partition_ranges.2.1 (APIResponseWrapper.mk ⟨399, []⟩) (Or.inl rfl)

/-- C4: header merging is right-biased: the merged mapping agrees with the
per-request mapping R on every key of R, and with the client's default
headers on every key not bound in R. -/
theorem merge_headers_right_biased :
    ∀ (c : APIClient) (R : List (Str × Str)),
      (R.map Prod.fst).Nodup →
      (∀ k v, dictGet R k = some v →
        dictGet (c.mergeHeaders (some R)) k = some v) ∧
      (∀ k, dictGet R k = none →
        dictGet (c.mergeHeaders (some R)) k = dictGet c.default_headers k) := by
  intro c R hnd
  constructor
  · intro k v h
    show dictGet (dictUpdate c.default_headers R) k = some v
    exact dictGet_dictUpdate_some _ _ _ _ hnd h
  · intro k h
    show dictGet (dictUpdate c.default_headers R) k = dictGet c.default_headers k
    exact dictGet_dictUpdate_none _ _ _ h

theorem merge_headers_right_biased_witness :
    (([("Accept".toList, "json".toList)]).map Prod.fst).Nodup ∧
    dictGet (sampleClient.mergeHeaders (some [("Accept".toList, "json".toList)]))
        "Accept".toList = some "json".toList :=
  ⟨by decide,
    (merge_headers_right_biased sampleClient [("Accept".toList, "json".toList)]
        (by decide)).1 "Accept".toList "json".toList rfl⟩

/-- C9: no request method mutates the client's stored default headers:
the post-state of every request step has the same default headers, header
merging afterwards is unaffected, and the Content-Type defaulting for dict
bodies never reaches the stored defaults. -/
theorem request_steps_preserve_default_headers :
    ∀ (c : APIClient) (e : Str) (d : PyData) (h₁ h₂ : Option (List (Str × Str)))
      (p : Option (List (Str × Json))),
      ((c.postStep e d h₁).1).default_headers = c.default_headers ∧
      ((c.getStep e p h₁).1).default_headers = c.default_headers ∧
      ((c.putStep e d h₁).1).default_headers = c.default_headers ∧
      ((c.deleteStep e h₁).1).default_headers = c.default_headers ∧
      ((c.postStep e d h₁).1).mergeHeaders h₂ = c.mergeHeaders h₂ ∧
      (dictGet c.default_headers "Content-Type".toList = none →
        dictGet (((c.postStep e d h₁).1).default_headers) "Content-Type".toList
          = none) := by
  intro c e d h₁ h₂ p
  exact ⟨rfl, rfl, rfl, rfl, rfl, fun h => h⟩

theorem request_steps_preserve_default_headers_witness :
    dictGet sampleClient.default_headers "Content-Type".toList = none ∧
    dictGet (((sampleClient.postStep "p".toList
        (PyData.dict [("title".toList, Json.str "x".toList)])
        (some [("X-Trace".toList, "1".toList)])).1).default_headers)
      "Content-Type".toList = none :=
  ⟨rfl,
    (request_steps_preserve_default_headers sampleClient "p".toList
        (PyData.dict [("title".toList, Json.str "x".toList)])
        (some [("X-Trace".toList, "1".toList)]) Option.none Option.none).2.2.2.2.2 rfl⟩

/-- C5: on post/put with a dict body the transported body is the JSON
serialisation of that dict, and Content-Type: application/json is added to
the merged headers exactly when no Content-Type key is present; a
caller-supplied Content-Type is left unchanged (as is every other merged
header). -/
theorem post_put_dict_body_json_content_type :
    ∀ (c : APIClient) (e : Str) (d : List (Str × Json))
      (h : Option (List (Str × Str))) (ctx : ReqCtx),
      c.request_context = some ctx →
      (c.postCall e (PyData.dict d) h = CallOutcome.transportCall ctx
        { method := "POST".toList
          url := c.buildUrl e
          params := Option.none
          headers := dictSetdefault (c.mergeHeaders h) "Content-Type".toList
            "application/json".toList
          body := some (jsonDumps (Json.obj d)) }) ∧
      (c.putCall e (PyData.dict d) h = CallOutcome.transportCall ctx
        { method := "PUT".toList
          url := c.buildUrl e
          params := Option.none
          headers := dictSetdefault (c.mergeHeaders h) "Content-Type".toList
            "application/json".toList
          body := some (jsonDumps (Json.obj d)) }) ∧
      (dictGet (c.mergeHeaders h) "Content-Type".toList = none →
        dictGet (dictSetdefault (c.mergeHeaders h) "Content-Type".toList
            "application/json".toList) "Content-Type".toList
          = some "application/json".toList ∧
        ∀ k, k ≠ "Content-Type".toList →
          dictGet (dictSetdefault (c.mergeHeaders h) "Content-Type".toList
              "application/json".toList) k
            = dictGet (c.mergeHeaders h) k) ∧
      (∀ v, dictGet (c.mergeHeaders h) "Content-Type".toList = some v →
        dictSetdefault (c.mergeHeaders h) "Content-Type".toList
            "application/json".toList
          = c.mergeHeaders h) := by
  intro c e d h ctx hctx
  refine ⟨?_, ?_,
    fun hno => ⟨dictGet_dictSetdefault_absent _ _ _ hno,
      fun k hk => dictGet_dictSetdefault_other _ _ _ _ hk⟩,
    fun v hv => dictGet_dictSetdefault_present _ _ _ _ hv⟩
  · unfold APIClient.postCall
    rw [hctx]
  · unfold APIClient.putCall
    rw [hctx]

theorem post_put_dict_body_json_content_type_witness :
    startedClient.request_context = some { disposed := false } ∧
    startedClient.postCall "posts".toList
        (PyData.dict [("title".toList, Json.str "x".toList)]) Option.none
      = CallOutcome.transportCall { disposed := false }
        { method := "POST".toList
          url := startedClient.buildUrl "posts".toList
          params := Option.none
          headers := dictSetdefault (startedClient.mergeHeaders Option.none)
            "Content-Type".toList "application/json".toList
          body := some (jsonDumps (Json.obj [("title".toList, Json.str "x".toList)])) } :=
  ⟨rfl,
    (post_put_dict_body_json_content_type startedClient "posts".toList
        [("title".toList, Json.str "x".toList)] Option.none { disposed := false }
        rfl).1⟩

/-- C6: a missing or unparsable config file makes construction fail with a
ValueError whose message embeds the offending path; the error is raised
while loading (so client construction propagates it) and no configuration
object is produced. -/
theorem config_error_names_offending_path :
    ∀ (fs : FS) (key : Option Str) (b : Str) (hs : Option (List (Str × Str)))
      (path : Str),
      (fs path = FileContent.missing →
        Config.load fs key (some path)
          = Except.error ("Config file not found: ".toList ++ path) ∧
        APIClient.init fs key b hs (some path)
          = Except.error ("Config file not found: ".toList ++ path) ∧
        ∃ pre post, "Config file not found: ".toList ++ path = pre ++ path ++ post) ∧
      (∀ err, fs path = FileContent.invalidYaml err →
        Config.load fs key (some path)
          = Except.error
              ("Invalid YAML in config file ".toList ++ path ++ ": ".toList ++ err) ∧
        APIClient.init fs key b hs (some path)
          = Except.error
              ("Invalid YAML in config file ".toList ++ path ++ ": ".toList ++ err) ∧
        ∃ pre post,
          "Invalid YAML in config file ".toList ++ path ++ ": ".toList ++ err
            = pre ++ path ++ post) := by
  intro fs key b hs path
  constructor
  · intro h
    have hy : Config.loadFromYaml fs Config.defaults path
        = Except.error ("Config file not found: ".toList ++ path) := by
      unfold Config.loadFromYaml
      rw [h]
    have hload : Config.load fs key (some path)
        = Except.error ("Config file not found: ".toList ++ path) := by
      simp only [Config.load]
      rw [hy]
    refine ⟨hload, ?_, "Config file not found: ".toList, [], by simp⟩
    unfold APIClient.init
    rw [hload]
  · intro err h
    have hy : Config.loadFromYaml fs Config.defaults path
        = Except.error
            ("Invalid YAML in config file ".toList ++ path ++ ": ".toList ++ err) := by
      unfold Config.loadFromYaml
      rw [h]
    have hload : Config.load fs key (some path)
        = Except.error
            ("Invalid YAML in config file ".toList ++ path ++ ": ".toList ++ err) := by
      simp only [Config.load]
      rw [hy]
    refine ⟨hload, ?_, "Invalid YAML in config file ".toList, ": ".toList ++ err,
      by simp⟩
    unfold APIClient.init
    rw [hload]

theorem config_error_names_offending_path_witness :
    fsMissing "conf.yaml".toList = FileContent.missing ∧
    APIClient.init fsMissing Option.none [] Option.none (some "conf.yaml".toList)
      = Except.error ("Config file not found: ".toList ++ "conf.yaml".toList) :=
  ⟨rfl,
    ((config_error_names_offending_path fsMissing Option.none [] Option.none
        "conf.yaml".toList).1 rfl).2.1⟩

/-- C10: constructing a client with the empty string as the explicit base
URL is the same call as omitting the argument (the Python default is ""),
and the resulting base URL falls back to the loaded configuration's base
URL (trailing slashes stripped): an empty-string argument never overrides
a configured base URL. -/
theorem empty_ctor_base_url_falls_back :
    ∀ (fs : FS) (key : Option Str) (hs : Option (List (Str × Str)))
      (cf : Option Str) (cfg : Config),
      Config.load fs key cf = Except.ok cfg →
      resultBaseUrl (APIClient.init fs key [] hs cf)
        = some (rstrip '/' cfg.base_url) ∧
      APIClient.init fs key [] hs cf = APIClient.init fs key "".toList hs cf := by
  intro fs key hs cf cfg h
  refine ⟨?_, rfl⟩
  unfold APIClient.init
  rw [h]
  rfl

theorem empty_ctor_base_url_falls_back_witness :
    Config.load fsMissing Option.none Option.none = Except.ok Config.defaults ∧
    resultBaseUrl (APIClient.init fsMissing Option.none [] Option.none Option.none)
      = some (rstrip '/' Config.defaults.base_url) :=
  ⟨rfl,
    (empty_ctor_base_url_falls_back fsMissing Option.none Option.none Option.none
        Config.defaults rfl).1⟩

/-- A YAML document setting only base_url. -/
def yamlBaseOnly (v : Str) : YamlDoc :=
  { base_url := some v
    timeout := none
    retry_count := none
    log_level := none
    default_headers := none }

/-- A YAML document setting base_url and an Authorization default header. -/
def yamlBaseAuth (v a : Str) : YamlDoc :=
  { base_url := some v
    timeout := none
    retry_count := none
    log_level := none
    default_headers := some [("Authorization".toList, a)] }

theorem init_ok_base (fs : FS) (key : Option Str) (b : Str)
    (hs : Option (List (Str × Str))) (cf : Option Str) (cfg : Config)
    (h : Config.load fs key cf = Except.ok cfg) :
    resultBaseUrl (APIClient.init fs key b hs cf)
      = some (rstrip '/' (pyOr b cfg.base_url)) := by
  unfold APIClient.init
  rw [h]
  rfl

/-- C3 (amended): with the built-in default base URL (empty), a config file
base URL and a non-empty constructor base URL all different, the client's
base URL is the constructor value with trailing slashes stripped; with the
constructor argument empty the file value wins (again slash-stripped), and
with no file the built-in default stands.  For headers, the environment's
API key overrides a file-supplied Authorization header, and a constructor
Authorization header overrides the environment's: defaults < file <
environment < constructor arguments. -/
theorem config_override_order :
    ∀ (fs : FS) (key : Option Str) (path fileVal ctorVal : Str)
      (hs : Option (List (Str × Str))),
      fs path = FileContent.yaml (some (yamlBaseOnly fileVal)) →
      ctorVal ≠ [] →
      resultBaseUrl (APIClient.init fs key ctorVal hs (some path))
        = some (rstrip '/' ctorVal) ∧
      resultBaseUrl (APIClient.init fs key [] hs (some path))
        = some (rstrip '/' fileVal) ∧
      resultBaseUrl (APIClient.init fs key [] hs Option.none)
        = some (rstrip '/' Config.defaults.base_url) ∧
      (∀ k a path₂, fs path₂ = FileContent.yaml (some (yamlBaseAuth fileVal a)) →
        key = some k →
        resultConfigAuth (Config.load fs key (some path₂))
          = some (some ("Bearer ".toList ++ k))) ∧
      (∀ k a path₂ v, fs path₂ = FileContent.yaml (some (yamlBaseAuth fileVal a)) →
        key = some k →
        resultClientAuth (APIClient.init fs key ctorVal
            (some [("Authorization".toList, v)]) (some path₂))
          = some (some v)) := by
  intro fs key path fileVal ctorVal hs hfs hne
  have hy : Config.load fs key (some path)
      = Except.ok (Config.loadFromEnvironment key
          { base_url := fileVal
            timeout := 30
            default_headers := Config.defaults.default_headers
            retry_count := 3
            log_level := "INFO".toList }) := by
    simp only [Config.load, Config.loadFromYaml]
    rw [hfs]
    rfl
  refine ⟨?_, ?_, ?_, ?_, ?_⟩
  · have h1 := init_ok_base fs key ctorVal hs (some path) _ hy
    rw [loadFromEnvironment_base] at h1
    rw [h1]
    show some (rstrip '/' (pyOr ctorVal fileVal)) = some (rstrip '/' ctorVal)
    unfold pyOr
    rw [if_neg hne]
  · have h2 := init_ok_base fs key [] hs (some path) _ hy
    rw [loadFromEnvironment_base] at h2
    rw [h2]
    rfl
  · have h0 : Config.load fs key Option.none
        = Except.ok (Config.loadFromEnvironment key Config.defaults) := rfl
    have h3 := init_ok_base fs key [] hs Option.none _ h0
    rw [loadFromEnvironment_base] at h3
    rw [h3]
    rfl
  · intro k a path₂ hfs2 hkey
    subst hkey
    have hy2 : Config.load fs (some k) (some path₂)
        = Except.ok
            { base_url := fileVal
              timeout := 30
              default_headers :=
                dictSet (dictUpdate Config.defaults.default_headers
                    [("Authorization".toList, a)])
                  "Authorization".toList ("Bearer ".toList ++ k)
              retry_count := 3
              log_level := "INFO".toList } := by
      simp only [Config.load, Config.loadFromYaml]
      rw [hfs2]
      rfl
    rw [hy2]
    show some (dictGet
        (dictSet (dictUpdate Config.defaults.default_headers
            [("Authorization".toList, a)])
          "Authorization".toList ("Bearer ".toList ++ k))
        "Authorization".toList)
      = some (some ("Bearer ".toList ++ k))
    rw [dictGet_dictSet, if_pos rfl]
  · intro k a path₂ v hfs2 hkey
    subst hkey
    have hy2 : Config.load fs (some k) (some path₂)
        = Except.ok
            { base_url := fileVal
              timeout := 30
              default_headers :=
                dictSet (dictUpdate Config.defaults.default_headers
                    [("Authorization".toList, a)])
                  "Authorization".toList ("Bearer ".toList ++ k)
              retry_count := 3
              log_level := "INFO".toList } := by
      simp only [Config.load, Config.loadFromYaml]
      rw [hfs2]
      rfl
    unfold APIClient.init
    rw [hy2]
    show some (dictGet
        (dictSet (dictSet (dictUpdate Config.defaults.default_headers
              [("Authorization".toList, a)])
            "Authorization".toList ("Bearer ".toList ++ k))
          "Authorization".toList v)
        "Authorization".toList)
      = some (some v)
    rw [dictGet_dictSet, if_pos rfl]

/-- A concrete file system holding one config file that sets base_url. -/
def fsC3 : FS := fun p =>
  if p = "config.yaml".toList then
    FileContent.yaml (some (yamlBaseOnly "http://file.example".toList))
  else FileContent.missing

theorem config_override_order_counterexample :
    resultBaseUrl (APIClient.init fsC3 Option.none "http://ctor.example/".toList
        Option.none (some "config.yaml".toList))
      = some "http://ctor.example".toList ∧
    ("http://ctor.example".toList == "http://ctor.example/".toList) = false := by
  exact ⟨rfl, rfl⟩

theorem config_override_order_witness :
    fsC3 "config.yaml".toList
      = FileContent.yaml (some (yamlBaseOnly "http://file.example".toList)) ∧
    resultBaseUrl (APIClient.init fsC3 Option.none "http://ctor.example".toList
        Option.none (some "config.yaml".toList))
      = some (rstrip '/' "http://ctor.example".toList) :=
  ⟨rfl,
    (config_override_order fsC3 Option.none "config.yaml".toList
        "http://file.example".toList "http://ctor.example".toList Option.none
        rfl (by decide)).1⟩

/-- C7 (amended): a freshly constructed client has no request context, and
every request method invoked with no request context fails from
dereferencing the unset context before any transport activity; but after
context exit the request context is not cleared, so request methods still
invoke the stored — now disposed — transport context instead of failing
with a client-side usage error. -/
theorem session_guard_before_start_only :
    (∀ (fs : FS) (key : Option Str) (b : Str) (hs : Option (List (Str × Str)))
       (cf : Option Str) (c : APIClient),
       APIClient.init fs key b hs cf = Except.ok c → c.request_context = none) ∧
    (∀ (c : APIClient) (e : Str) (p : Option (List (Str × Json)))
       (d : PyData) (h : Option (List (Str × Str))),
       c.request_context = none →
         c.getCall e p h = CallOutcome.noneContextError ∧
         c.postCall e d h = CallOutcome.noneContextError ∧
         c.putCall e d h = CallOutcome.noneContextError ∧
         c.deleteCall e h = CallOutcome.noneContextError) ∧
    (∀ (c : APIClient) (e : Str) (p : Option (List (Str × Json)))
       (h : Option (List (Str × Str))),
       ((c.aenter).aexit).getCall e p h
         = CallOutcome.transportCall { disposed := true }
             { method := "GET".toList
               url := c.buildUrl e
               params := p
               headers := c.mergeHeaders h
               body := Option.none }) := by
  refine ⟨?_, ?_, ?_⟩
  · intro fs key b hs cf c h
    unfold APIClient.init at h
    cases hcfg : Config.load fs key cf with
    | error err =>
        rw [hcfg] at h
        exact absurd h (by simp)
    | ok config =>
        rw [hcfg] at h
        simp only [Except.ok.injEq] at h
        subst h
        rfl
  · intro c e p d h hctx
    refine ⟨?_, ?_, ?_, ?_⟩
    · unfold APIClient.getCall
      rw [hctx]
    · unfold APIClient.postCall
      rw [hctx]
    · unfold APIClient.putCall
      rw [hctx]
    · unfold APIClient.deleteCall
      rw [hctx]
  · intro c e p h
    rfl

theorem session_guard_before_start_only_witness :
    sampleClient.request_context = none ∧
    sampleClient.getCall "posts".toList Option.none Option.none
      = CallOutcome.noneContextError :=
  ⟨rfl,
    (session_guard_before_start_only.2.1 sampleClient "posts".toList Option.none
        PyData.none Option.none rfl).1⟩

theorem session_guard_counterexample :
    CallOutcome.issuesTransport
        (((sampleClient.aenter).aexit).getCall "posts".toList Option.none Option.none)
      = true ∧
    CallOutcome.transportCtx
        (((sampleClient.aenter).aexit).getCall "posts".toList Option.none Option.none)
      = some { disposed := true } ∧
    ((sampleClient.aenter).aexit).request_context = some { disposed := true } :=
  ⟨rfl, rfl, rfl⟩

theorem exceptBind_ok {ε α β : Type} (a : α) (f : α → Except ε β) :
    (Except.ok a : Except ε α) >>= f = f a := rfl

theorem exceptBind_error {ε α β : Type} (err : ε) (f : α → Except ε β) :
    (Except.error err : Except ε α) >>= f = Except.error err := rfl

theorem pyAssert_true (m : Option Str) : pyAssert true m = Except.ok () := rfl

theorem pyAssert_false (m : Option Str) :
    pyAssert false m = Except.error (PyErr.assertionError m) := rfl

/-- A well-shaped post body whose id (2) differs from the expected id (1). -/
def cexPost : Json :=
  Json.obj [("id".toList, Json.num 2), ("title".toList, Json.str "t".toList),
    ("body".toList, Json.str "b".toList), ("userId".toList, Json.num 1)]

theorem json_shape_message_counterexample :
    APIValidations.validate_single_post cexPost (Json.num 1)
      = Except.error (PyErr.assertionError Option.none) := rfl

/-- C8 (amended): validate_json_field_value's failures carry messages naming
the field and, on a value mismatch, both the actual and the expected value;
validate_json_contains_fields' failure names the field; but
validate_single_post (like validate_post_list) uses bare asserts whose
AssertionError carries no message at all, and validate_list_not_empty's
emptiness failure is the fixed message "List is empty" without the field
name. -/
theorem json_shape_failure_messages :
    (∀ (d : List (Str × Json)) (f : Str) (exp : Json),
       dictGet d f = none →
         APIValidations.validate_json_field_value (Json.obj d) f exp
           = Except.error (PyErr.assertionError (some (fieldMissingMsg f))) ∧
         ∃ pre post, fieldMissingMsg f = pre ++ f ++ post) ∧
    (∀ (d : List (Str × Json)) (f : Str) (exp v : Json),
       dictGet d f = some v → jsonEq v exp = false →
         APIValidations.validate_json_field_value (Json.obj d) f exp
           = Except.error (PyErr.assertionError (some (fieldValueMsg f v exp))) ∧
         (∃ pre post, fieldValueMsg f v exp = pre ++ f ++ post) ∧
         (∃ pre post, fieldValueMsg f v exp = pre ++ pyToStr v ++ post) ∧
         (∃ pre post, fieldValueMsg f v exp = pre ++ pyToStr exp ++ post)) ∧
    (∀ (body : Json) (f : Str) (fs : List Str),
       pyIn f body = Except.ok false →
         APIValidations.validate_json_contains_fields body (f :: fs)
           = Except.error (PyErr.assertionError (some (requiredFieldMsg f))) ∧
         ∃ pre post, requiredFieldMsg f = pre ++ f ++ post) ∧
    (∀ (d : List (Str × Json)) (pid v : Json),
       dictGet d "id".toList = some v → jsonEq v pid = false →
         APIValidations.validate_single_post (Json.obj d) pid
           = Except.error (PyErr.assertionError Option.none)) ∧
    (∀ (d : List (Str × Json)) (f : Str),
       dictGet d f = some (Json.arr []) →
         DataValidations.validate_list_not_empty (Json.obj d) (some f)
           = Except.error (PyErr.assertionError (some "List is empty".toList))) := by
  refine ⟨?_, ?_, ?_, ?_, ?_⟩
  · intro d f exp h
    have h1 : pyIn f (Json.obj d) = Except.ok false := by
      simp only [pyIn]
      rw [h]
      rfl
    refine ⟨?_, "Field ".toList ++ [squoteChar],
      [squoteChar] ++ " not found in response".toList,
      by simp [fieldMissingMsg, pyStrRepr]⟩
    simp only [APIValidations.validate_json_field_value, h1, exceptBind_ok,
      pyAssert_false, exceptBind_error]
  · intro d f exp v h hje
    have h1 : pyIn f (Json.obj d) = Except.ok true := by
      simp only [pyIn]
      rw [h]
      rfl
    have h2 : pyGetItem (Json.obj d) f = Except.ok v := by
      simp only [pyGetItem]
      rw [h]
    refine ⟨?_,
      ⟨"Field ".toList ++ [squoteChar],
        [squoteChar] ++ " has value ".toList ++ pyStrRepr (pyToStr v) ++
          ", expected ".toList ++ pyStrRepr (pyToStr exp),
        by simp [fieldValueMsg, pyStrRepr]⟩,
      ⟨"Field ".toList ++ pyStrRepr f ++ " has value ".toList ++ [squoteChar],
        [squoteChar] ++ ", expected ".toList ++ pyStrRepr (pyToStr exp),
        by simp [fieldValueMsg, pyStrRepr]⟩,
      ⟨"Field ".toList ++ pyStrRepr f ++ " has value ".toList ++
          pyStrRepr (pyToStr v) ++ ", expected ".toList ++ [squoteChar],
        [squoteChar],
        by simp [fieldValueMsg, pyStrRepr]⟩⟩
    simp only [APIValidations.validate_json_field_value, h1, h2, exceptBind_ok,
      pyAssert_true, hje, pyAssert_false]
  · intro body f fs h1
    refine ⟨?_, "Required field ".toList ++ [squoteChar],
      [squoteChar] ++ " not found in response".toList,
      by simp [requiredFieldMsg, pyStrRepr]⟩
    simp only [APIValidations.validate_json_contains_fields, h1, exceptBind_ok,
      pyAssert_false, exceptBind_error]
  · intro d pid v h hje
    have h2 : pyGetItem (Json.obj d) "id".toList = Except.ok v := by
      simp only [pyGetItem]
      rw [h]
    simp only [APIValidations.validate_single_post, h2, exceptBind_ok, hje,
      pyAssert_false, exceptBind_error]
  · intro d f h
    have h1 : pyIn f (Json.obj d) = Except.ok true := by
      simp only [pyIn]
      rw [h]
      rfl
    have h2 : pyGetItem (Json.obj d) f = Except.ok (Json.arr []) := by
      simp only [pyGetItem]
      rw [h]
    simp only [DataValidations.validate_list_not_empty, h1, h2, exceptBind_ok,
      pyAssert_true]
    rfl

theorem json_shape_failure_messages_witness :
    dictGet ([] : List (Str × Json)) "id".toList = none ∧
    APIValidations.validate_json_field_value (Json.obj []) "id".toList (Json.num 1)
      = Except.error (PyErr.assertionError (some (fieldMissingMsg "id".toList))) :=
  ⟨rfl, ((json_shape_failure_messages.1 [] "id".toList (Json.num 1)) rfl).1⟩
